import Mathlib

/-!
A shallow embedding of the `dht` package (Kademlia-style DHT node) and proofs
about its inbound message handling, constants, and constructor.

Go strings are embedded as Lean `String` (all operations the code performs on
them are equality tests and length checks).  Stateful handlers become pure
functions from the node state to a new state together with the list of
responses sent.  Components of the repository whose source is not available
here (routing table, peer store, message-field constants) are modelled from
the specification; each such definition says so in its doc comment.
-/

namespace Dht

/-- Constant from the source: the UDP network name. -/
def network : String := "udp4"

/-- Constant from the source: the lookup parallelism factor (alpha in the spec). -/
def alpha : Nat := 3

/-- Constant from the source: identifier length in bytes (B in the spec). -/
def nodeIDLength : Nat := 48

/-- Constant from the source: bucket capacity (k in the spec). -/
def bucketSize : Nat := 20

/-- Constant from the source: number of routing-table buckets. -/
def numBuckets : Nat := nodeIDLength * 8

/-- Constant from the source: byte length of a compact node info entry. -/
def compactNodeInfoLength : Nat := nodeIDLength + 6

/-- A known peer: identifier plus network address. -/
structure Node where
  id : String
  ip : String
  port : Nat
deriving DecidableEq

/-- A UDP source address, as seen by the handlers. -/
structure Addr where
  ip : String
  port : Nat
deriving DecidableEq

/-- Modelled from the spec: the Routing Table (its source file is not
available).  Per spec §4.2 it holds contacts for the local node; `Update`
no-ops on the local id and otherwise inserts or refreshes the contact at the
front.  Bucket capacity and splitting are omitted: no claim below exercises
them. -/
structure RoutingTable where
  node : Node
  contacts : List Node
deriving DecidableEq

/-- Modelled from the spec: a fresh routing table for the local node holds no
contacts. -/
def newRoutingTable (n : Node) : RoutingTable := ⟨n, []⟩

/-- Modelled from the spec: `Update` inserts or refreshes a contact.  If the
contact's id equals the local id it is a no-op; otherwise the contact replaces
any existing contact with the same id and moves to the front (most recently
contacted first). -/
def RoutingTable.Update (rt : RoutingTable) (c : Node) : RoutingTable :=
  if c.id = rt.node.id then rt
  else { rt with contacts := c :: rt.contacts.filter (fun x => x.id ≠ c.id) }

/-- XOR of two identifiers, read as a big-endian unsigned integer
(spec §4.1 distance). -/
def xorDist (a b : String) : Nat :=
  (List.zipWith (fun x y => Nat.xor x.toNat y.toNat) a.toList b.toList).foldl
    (fun acc byte => acc * 256 + byte) 0

/-- Insert a contact into a list kept sorted by ascending distance to `target`. -/
def insertByDist (target : String) (c : Node) : List Node → List Node
  | [] => [c]
  | x :: xs =>
    if xorDist c.id target ≤ xorDist x.id target then c :: x :: xs
    else x :: insertByDist target c xs

/-- Sort contacts by ascending XOR distance to `target`. -/
def sortByDist (target : String) (l : List Node) : List Node :=
  l.foldr (insertByDist target) []

/-- Modelled from the spec: `FindClosest` returns up to `count` contacts
ordered by ascending distance to `target` (spec §4.2). -/
def RoutingTable.FindClosest (rt : RoutingTable) (target : String) (count : Nat) :
    List Node :=
  (sortByDist target rt.contacts).take count

/-- Modelled from the spec: the Record Store (its source file is not
available).  It maps content keys to publisher ids; expiry bookkeeping is
omitted, as no claim below exercises it. -/
structure peerStore where
  entries : List (String × String)
deriving DecidableEq

/-- Modelled from the spec: a fresh record store is empty. -/
def newPeerStore : peerStore := ⟨[]⟩

/-- Modelled from the spec: `Insert` appends a record for the key unless the
same publisher already has one for it (spec §4.3). -/
def peerStore.Insert (s : peerStore) (blobHash nodeID : String) : peerStore :=
  if (blobHash, nodeID) ∈ s.entries then s
  else ⟨(blobHash, nodeID) :: s.entries⟩

/-- Modelled from the spec: `Get` returns the publisher ids stored under the
key, most recent first; the empty list if the key is unknown (spec §4.3). -/
def peerStore.Get (s : peerStore) (blobHash : String) : List String :=
  (s.entries.filter (fun e => e.fst = blobHash)).map Prod.snd

/-- Modelled from the spec: the request method names (declared outside the
available source; spec §6 lists the four methods). -/
def pingMethod : String := "ping"

/-- Modelled from the spec: the store method name. -/
def storeMethod : String := "store"

/-- Modelled from the spec: the findNode method name. -/
def findNodeMethod : String := "findNode"

/-- Modelled from the spec: the findValue method name. -/
def findValueMethod : String := "findValue"

/-- Modelled from the spec: the fixed success payload sent in reply to a ping
(spec §4.5: "reply with a fixed success payload"; the constant is declared
outside the available source). -/
def pingSuccessResponse : String := "pong"

/-- Modelled from the spec: the fixed success payload sent in reply to a
successful store (declared outside the available source). -/
def storeSuccessResponse : String := "OK"

/-- The structured payload of a store request: content key and publisher id. -/
structure storeArgs where
  BlobHash : String
  NodeID : String
deriving DecidableEq

/-- The request message shape. -/
structure Request where
  ID : String
  NodeID : String
  Method : String
  Args : List String
  StoreArgs : storeArgs
deriving DecidableEq

/-- The response message shape: an opaque payload string or a contact list. -/
structure Response where
  ID : String
  NodeID : String
  Data : String
  FindNodeData : List Node
deriving DecidableEq

/-- The error message shape. -/
structure Error where
  ID : String
  NodeID : String
  ExceptionType : String
  Response : List String
deriving DecidableEq

/-- The configuration consumed by `New`. -/
structure Config where
  Address : String
  SeedNodes : List String
  NodeID : String
deriving DecidableEq

/-- `NewStandardConfig` returns the default configuration. -/
def NewStandardConfig : Config :=
  { Address := ":4444"
    SeedNodes := ["lbrynet1.lbry.io:4444", "lbrynet2.lbry.io:4444",
                  "lbrynet3.lbry.io:4444"]
    NodeID := "" }

/-- The DHT node state reachable from inbound packet handling: local identity,
routing table and record store (the socket and packet channel are effects). -/
structure DHT where
  conf : Config
  node : Node
  routingTable : RoutingTable
  store : peerStore
deriving DecidableEq

/-- The method switch of `handleRequest`: `none` embeds the early `return`
paths (no reply, no routing-table update); `some` carries the updated state
and the responses sent, before the shared routing-table update. -/
def handleRequestBody (dht : DHT) (addr : Addr) (request : Request) :
    Option (DHT × List (Addr × Response)) :=
  if request.Method = pingMethod then
    some (dht, [(addr, ⟨request.ID, dht.node.id, pingSuccessResponse, []⟩)])
  else if request.Method = storeMethod then
    if request.StoreArgs.BlobHash = "" then
      none
    else
      some ({ dht with
                store := dht.store.Insert request.StoreArgs.BlobHash
                  request.StoreArgs.NodeID },
            [(addr, ⟨request.ID, dht.node.id, storeSuccessResponse, []⟩)])
  else if request.Method = findNodeMethod then
    match request.Args with
    | [] => none
    | arg0 :: _ =>
      if arg0.length ≠ nodeIDLength then none
      else
        some (dht,
          [(addr, ⟨request.ID, dht.node.id, "",
                   dht.routingTable.FindClosest arg0 bucketSize⟩)])
  else if request.Method = findValueMethod then
    match request.Args with
    | [] => none
    | arg0 :: _ =>
      if arg0.length ≠ nodeIDLength then none
      else
        -- the source looks the key up in the store here, but both branches of
        -- its `if len(nodeIDs) > 0` are empty, so the result is dropped and
        -- the closest-contacts reply is always sent
        some (dht,
          [(addr, ⟨request.ID, dht.node.id, "",
                   dht.routingTable.FindClosest arg0 bucketSize⟩)])
  else none

/-- `handleRequest`: ignore self-requests; otherwise run the method switch and,
on its success paths only, record the sender's contact via
`RoutingTable.Update`.  The `Bool` is the named return `success`. -/
def handleRequest (dht : DHT) (addr : Addr) (request : Request) :
    DHT × List (Addr × Response) × Bool :=
  if request.NodeID = dht.node.id then (dht, [], false)
  else
    match handleRequestBody dht addr request with
    | none => (dht, [], false)
    | some (dht1, sent) =>
      ({ dht1 with
           routingTable :=
             dht1.routingTable.Update ⟨request.NodeID, addr.ip, addr.port⟩ },
       sent, true)

/-- `handleResponse`: the transaction-matching logic is commented out in the
source; every response unconditionally records the responder's contact via
`RoutingTable.Update`, sends nothing, and returns success. -/
def handleResponse (dht : DHT) (addr : Addr) (response : Response) :
    DHT × List (Addr × Response) × Bool :=
  ({ dht with
       routingTable :=
         dht.routingTable.Update ⟨response.NodeID, addr.ip, addr.port⟩ },
   [], true)

/-- `handleError`: records the sender's contact via `RoutingTable.Update`. -/
def handleError (dht : DHT) (addr : Addr) (e : Error) :
    DHT × List (Addr × Response) × Bool :=
  ({ dht with
       routingTable :=
         dht.routingTable.Update ⟨e.NodeID, addr.ip, addr.port⟩ },
   [], true)

/-- A decoded bencode value, as the dynamically-typed `map[string]interface{}`
the source inspects after the external codec has decoded the datagram. -/
inductive BVal where
  | int (i : Int)
  | str (s : String)
  | list (l : List BVal)
  | dict (d : List (String × BVal))

/-- A decoded top-level message: a dictionary from field names to values. -/
abbrev BDict := List (String × BVal)

/-- Field lookup in a decoded dictionary (Go map indexing). -/
def bLookup (d : BDict) (k : String) : Option BVal :=
  (d.find? (fun e => e.fst == k)).map Prod.snd

/-- Modelled from the spec: the fixed header field holding the distinguishing
type tag (the field-name constants are declared outside the available
source). -/
def headerTypeField : String := "0"

/-- Modelled from the spec: the header field holding the transaction id. -/
def headerMessageIDField : String := "1"

/-- Modelled from the spec: the header field holding the sender node id. -/
def headerNodeIDField : String := "2"

/-- Modelled from the spec: the header field holding the method or payload. -/
def headerPayloadField : String := "3"

/-- Modelled from the spec: the header field holding the argument list. -/
def headerArgsField : String := "4"

/-- Modelled from the spec: the type-tag value selecting the request shape. -/
def requestType : Int := 0

/-- Modelled from the spec: the type-tag value selecting the response shape. -/
def responseType : Int := 1

/-- Modelled from the spec: the type-tag value selecting the error shape. -/
def errorType : Int := 2

/-- Extract a string value, failing on any other shape. -/
def asStr : BVal → Option String
  | .str s => some s
  | _ => none

/-- Extract a list of strings, failing on any other shape. -/
def asStrList : BVal → Option (List String)
  | .list l => l.mapM asStr
  | _ => none

/-- `cast.ToString` on a dynamic value: never fails, falls back to "". -/
def castToString : BVal → String
  | .str s => s
  | .int i => toString i
  | _ => ""

/-- `getArgs`: if the value is a slice, cast each element to a string;
otherwise return no arguments. -/
def getArgs : BVal → List String
  | .list l => l.map castToString
  | _ => []

/-- Modelled from the spec: typed decoding of the request shape (the codec
library is an external collaborator).  Header fields must hold strings, the
argument field a list of strings; a store request additionally carries the
structured payload with content key and publisher id (spec §6).  Any mismatch
is a decode error. -/
def decodeRequest (d : BDict) : Option Request := do
  let id ← bLookup d headerMessageIDField >>= asStr
  let nodeID ← bLookup d headerNodeIDField >>= asStr
  let method ← bLookup d headerPayloadField >>= asStr
  let args ←
    match bLookup d headerArgsField with
    | none => some []
    | some v => asStrList v
  if method = storeMethod then
    match args with
    | blobHash :: pubID :: _ => some ⟨id, nodeID, method, args, ⟨blobHash, pubID⟩⟩
    | _ => none
  else
    some ⟨id, nodeID, method, args, ⟨"", ""⟩⟩

/-- Modelled from the spec: typed decoding of the response shape.  A string
payload becomes `Data`; contact-list payloads are not needed by any claim
below and decode to the empty list. -/
def decodeResponse (d : BDict) : Option Response := do
  let id ← bLookup d headerMessageIDField >>= asStr
  let nodeID ← bLookup d headerNodeIDField >>= asStr
  let data := ((bLookup d headerPayloadField).bind asStr).getD ""
  some ⟨id, nodeID, data, []⟩

/-- The observable outcome of `handle` on one datagram: a runtime panic, a
silent drop (logged, no reply, no state change), or normal handling with the
resulting state and replies. -/
inductive HandleOutcome where
  | panic
  | dropped
  | handled (dht : DHT) (sent : List (Addr × Response))
deriving DecidableEq

/-- `handle`, from the decode result onward (`none` is a codec decode error).
A missing type tag is logged and dropped, but `switch msgType.(int64)` is an
unchecked type assertion: a non-integer tag panics.  The error branch reads
the header fields with unchecked `.(string)` assertions (panic on a missing
or ill-typed field), and `getArgs` dereferences a nil `reflect.Type` when the
argument field is absent (panic). -/
def handle (dht : DHT) (addr : Addr) (decoded : Option BDict) : HandleOutcome :=
  match decoded with
  | none => .dropped
  | some data =>
    match bLookup data headerTypeField with
    | none => .dropped
    | some msgType =>
      match msgType with
      | .int t =>
        if t = requestType then
          match decodeRequest data with
          | none => .dropped
          | some request =>
            let (dht1, sent, _) := handleRequest dht addr request
            .handled dht1 sent
        else if t = responseType then
          match decodeResponse data with
          | none => .dropped
          | some response =>
            let (dht1, sent, _) := handleResponse dht addr response
            .handled dht1 sent
        else if t = errorType then
          match bLookup data headerMessageIDField,
                bLookup data headerNodeIDField,
                bLookup data headerPayloadField with
          | some (.str eid), some (.str enid), some (.str etype) =>
            match bLookup data headerArgsField with
            | none => .panic
            | some argsVal =>
              let e : Error := ⟨eid, enid, etype, getArgs argsVal⟩
              let (dht1, sent, _) := handleError dht addr e
              .handled dht1 sent
          | _, _, _ => .panic
        else .dropped
      | _ => .panic

/-- Modelled behavior of the external `net.SplitHostPort`: split at the last
colon, failing when the address holds none. -/
def splitLastColon : List Char → Option (List Char × List Char)
  | [] => none
  | c :: rest =>
    match splitLastColon rest with
    | some (h, p) => some (c :: h, p)
    | none => if c = ':' then some ([], rest) else none

/-- Split an `ip:port` address into host and port strings. -/
def splitHostPort (s : String) : Option (String × String) :=
  (splitLastColon s.toList).map (fun hp => (String.mk hp.fst, String.mk hp.snd))

/-- Modelled behavior of the external `cast.ToIntE` on a port string: a
non-empty all-digit string parses to its decimal value, anything else fails. -/
def toIntE (s : String) : Option Nat :=
  if s.toList ≠ [] ∧ s.toList.all Char.isDigit then
    some (s.toList.foldl (fun acc c => acc * 10 + (c.toNat - 48)) 0)
  else none

/-- Hex digit value. -/
def hexVal (c : Char) : Nat :=
  if c.isDigit then c.toNat - 48
  else if 'a' ≤ c ∧ c ≤ 'f' then c.toNat - 87
  else if 'A' ≤ c ∧ c ≤ 'F' then c.toNat - 55
  else 0

/-- Decode hex digit pairs to bytes. -/
def hexPairs : List Char → List Char
  | a :: b :: rest => Char.ofNat (16 * hexVal a + hexVal b) :: hexPairs rest
  | _ => []

/-- Modelled from the spec: `newBitmapFromHex` decodes a hex-encoded node id
(declared outside the available source). -/
def newBitmapFromHex (s : String) : String := String.mk (hexPairs s.toList)

/-- The outcome of `New`: a constructed node, or a panic from address
parsing. -/
inductive NewResult where
  | panicked
  | ok (dht : DHT)
deriving DecidableEq

/-- `New`: a nil config is replaced by the standard one; an empty `NodeID`
means a freshly generated random id (randomness is an effect, so the random
id is an explicit argument here); `net.SplitHostPort` or `cast.ToIntE`
failures panic rather than returning an error. -/
def New (randomID : String) (config : Option Config) : NewResult :=
  let conf := config.getD NewStandardConfig
  let id := if conf.NodeID = "" then randomID else newBitmapFromHex conf.NodeID
  match splitHostPort conf.Address with
  | none => .panicked
  | some hp =>
    match toIntE hp.snd with
    | none => .panicked
    | some portInt =>
      let node : Node := ⟨id, hp.fst, portInt⟩
      .ok ⟨conf, node, newRoutingTable node, newPeerStore⟩

/-- A concrete local node used in concrete evaluations. -/
def nodeA : Node := ⟨"A", "", 4444⟩

/-- A concrete freshly-constructed node state (empty routing table and store). -/
def dht0 : DHT := ⟨NewStandardConfig, nodeA, newRoutingTable nodeA, newPeerStore⟩

/-- A concrete remote address. -/
def addrB : Addr := ⟨"1.2.3.4", 5678⟩

/-- A concrete content key of the required identifier length. -/
def keyK : String := String.mk (List.replicate nodeIDLength 'K')

/-- A concrete known contact. -/
def contactC : Node := ⟨"C", "9.9.9.9", 1⟩

/-- A concrete node state whose store holds a record for `keyK` (publisher
"P") and whose routing table knows `contactC`. -/
def dhtV : DHT := ⟨NewStandardConfig, nodeA, ⟨nodeA, [contactC]⟩, ⟨[(keyK, "P")]⟩⟩

/-- A concrete ping request from remote node "B". -/
def pingReqB : Request := ⟨"m1", "B", pingMethod, [], ⟨"", ""⟩⟩

/-- A concrete store request from "B" with an empty content key. -/
def storeReqEmpty : Request := ⟨"m2", "B", storeMethod, [], ⟨"", "P"⟩⟩

/-- A concrete store request from "B" with content key "K1" published by "P". -/
def storeReqB : Request := ⟨"m4", "B", storeMethod, [], ⟨"K1", "P"⟩⟩

/-- A concrete findNode request from "B" for `keyK`. -/
def findNodeReqB : Request := ⟨"m3", "B", findNodeMethod, [keyK], ⟨"", ""⟩⟩

/-- A concrete findValue request from "B" for `keyK`. -/
def findValueReqB : Request := ⟨"m5", "B", findValueMethod, [keyK], ⟨"", ""⟩⟩

/-- A config whose address holds no colon, so host/port splitting fails. -/
def cfgBadAddr : Config := ⟨"badaddress", [], ""⟩

/-- C9: the compiled-in protocol constants match the spec: nodeIDLength = 48
bytes (so numBuckets = 8 * 48 = 384), bucketSize k = 20, alpha = 3, and
compactNodeInfoLength = nodeIDLength + 6 = 54. -/
theorem C9_protocol_constants :
    nodeIDLength = 48 ∧ numBuckets = 8 * 48 ∧ numBuckets = 384 ∧
    bucketSize = 20 ∧ alpha = 3 ∧
    compactNodeInfoLength = nodeIDLength + 6 ∧ compactNodeInfoLength = 54 := by
  decide

/-- C1 (code bug): with a record for `keyK` in the local store, an inbound
findValue request for `keyK` is answered with a closest-contact node list
(`FindNodeData = [contactC]`) and the stored publisher ids are discarded —
the fall-through in the source's findValue branch never returns the stored
values, contradicting the specified findValue contract. -/
theorem C1_findValue_ignores_stored_values :
    dhtV.store.Get keyK = ["P"] ∧
    (handleRequest dhtV addrB findValueReqB).2.1 =
      [(addrB, ⟨"m5", nodeA.id, "", [contactC]⟩)] := by
  decide

/-- C3 (code bug): a decoded datagram whose type tag is a bencode string hits
the unchecked `msgType.(int64)` assertion and panics, and an error-typed
message with missing header fields panics on the unchecked `.(string)`
assertions — decoding failures can crash the node. -/
theorem C3_bad_discriminant_panics :
    handle dht0 addrB (some [(headerTypeField, BVal.str "x")]) = .panic ∧
    handle dht0 addrB (some [(headerTypeField, BVal.int errorType)]) = .panic := by
  decide

/-- C5 counterexample: an inbound response from "B" correlates to no pending
transaction (the source tracks none at all), yet handling it mutates local
state — the responder's contact is inserted into the routing table. -/
theorem C5_uncorrelated_response_mutates_state :
    (handleResponse dht0 addrB ⟨"m9", "B", "", []⟩).1.routingTable.contacts =
      [⟨"B", "1.2.3.4", 5678⟩] := by
  decide

/-- C5 amended: every inbound response (none is ever correlated, since the
transaction-matching logic is absent) is dropped without a reply and without
being treated as an error, but the responder's contact is still recorded in
the routing table via `RoutingTable.Update`. -/
theorem C5_response_always_updates_routing_table (dht : DHT) (addr : Addr)
    (resp : Response) :
    handleResponse dht addr resp =
      ({ dht with
           routingTable :=
             dht.routingTable.Update ⟨resp.NodeID, addr.ip, addr.port⟩ },
       [], true) := rfl

/-- C4: a request whose claimed sender id equals the local id is ignored
(state unchanged, nothing sent, not a success), and a self-referential
response sends nothing and leaves the state unchanged because
`RoutingTable.Update` no-ops on the local id. -/
theorem C4_self_traffic_ignored (dht : DHT) (addr : Addr) (req : Request)
    (resp : Response) (hwf : dht.routingTable.node = dht.node)
    (hreq : req.NodeID = dht.node.id) (hresp : resp.NodeID = dht.node.id) :
    handleRequest dht addr req = (dht, [], false) ∧
    handleResponse dht addr resp = (dht, [], true) := by
  constructor
  · unfold handleRequest
    rw [if_pos hreq]
  · have hc : (Node.mk resp.NodeID addr.ip addr.port).id =
        dht.routingTable.node.id := by
      rw [hwf]; exact hresp
    unfold handleResponse RoutingTable.Update
    rw [if_pos hc]

/-- C4 witness: the self-traffic theorem at the concrete node state `dht0`
with a self-ping request and a self-response. -/
theorem C4_self_traffic_ignored_witness :
    dht0.routingTable.node = dht0.node ∧
    (⟨"m6", "A", pingMethod, [], ⟨"", ""⟩⟩ : Request).NodeID = dht0.node.id ∧
    (⟨"m7", "A", "", []⟩ : Response).NodeID = dht0.node.id ∧
    (handleRequest dht0 addrB ⟨"m6", "A", pingMethod, [], ⟨"", ""⟩⟩ =
       (dht0, [], false) ∧
     handleResponse dht0 addrB ⟨"m7", "A", "", []⟩ = (dht0, [], true)) :=
  ⟨rfl, rfl, rfl,
   C4_self_traffic_ignored dht0 addrB ⟨"m6", "A", pingMethod, [], ⟨"", ""⟩⟩
     ⟨"m7", "A", "", []⟩ rfl rfl rfl⟩

/-- The method switch never touches the routing table or the local identity:
only the shared tail of `handleRequest` updates the routing table. -/
theorem handleRequestBody_preserves (dht : DHT) (addr : Addr) (req : Request)
    (p : DHT × List (Addr × Response))
    (h : handleRequestBody dht addr req = some p) :
    p.1.routingTable = dht.routingTable ∧ p.1.node = dht.node := by
  unfold handleRequestBody at h
  repeat' split at h
  all_goals first
    | (injection h with h; subst h; exact ⟨rfl, rfl⟩)
    | injection h

/-- C2 counterexample: a store request from "B" (whose id differs from the
local id "A") with an empty content key is handled, yet the routing table
stays empty — the sender's contact is not recorded, because the method switch
returns early before the shared `RoutingTable.Update` call. -/
theorem C2_failed_store_skips_routing_update :
    storeReqEmpty.NodeID ≠ dht0.node.id ∧
    handleRequest dht0 addrB storeReqEmpty = (dht0, [], false) ∧
    (handleRequest dht0 addrB storeReqEmpty).1.routingTable.contacts = [] := by
  decide

/-- C2 amended: for a request from a sender whose id differs from the local
id, the sender's contact is recorded via `RoutingTable.Update` exactly when
the method-specific handling succeeds; on the failure paths (empty store key,
missing or wrong-length findNode/findValue argument, unknown method) the
handler returns early, sending nothing and leaving the state unchanged. -/
theorem C2_update_only_on_success (dht : DHT) (addr : Addr) (req : Request)
    (hwf : dht.routingTable.node = dht.node) (hid : req.NodeID ≠ dht.node.id) :
    ((handleRequest dht addr req).2.2 = true →
       (⟨req.NodeID, addr.ip, addr.port⟩ : Node) ∈
         (handleRequest dht addr req).1.routingTable.contacts) ∧
    ((handleRequest dht addr req).2.2 = false →
       (handleRequest dht addr req).1 = dht ∧
       (handleRequest dht addr req).2.1 = []) := by
  unfold handleRequest
  rw [if_neg hid]
  cases hb : handleRequestBody dht addr req with
  | none => simp
  | some p =>
    obtain ⟨dht1, sent⟩ := p
    have hrt : dht1.routingTable = dht.routingTable :=
      (handleRequestBody_preserves dht addr req (dht1, sent) hb).1
    refine ⟨fun _ => ?_, fun hfalse => by cases hfalse⟩
    show (⟨req.NodeID, addr.ip, addr.port⟩ : Node) ∈
      (dht1.routingTable.Update ⟨req.NodeID, addr.ip, addr.port⟩).contacts
    have hc : ¬ ((⟨req.NodeID, addr.ip, addr.port⟩ : Node).id =
        dht1.routingTable.node.id) := by
      rw [hrt, hwf]
      exact hid
    unfold RoutingTable.Update
    rw [if_neg hc]
    exact List.mem_cons_self _ _

/-- C2 amended witness: at the concrete state `dht0`, the successful ping from
"B" records the contact and the failed empty-key store changes nothing. -/
theorem C2_update_only_on_success_witness :
    dht0.routingTable.node = dht0.node ∧ pingReqB.NodeID ≠ dht0.node.id ∧
    (((handleRequest dht0 addrB pingReqB).2.2 = true →
        (⟨pingReqB.NodeID, addrB.ip, addrB.port⟩ : Node) ∈
          (handleRequest dht0 addrB pingReqB).1.routingTable.contacts) ∧
     ((handleRequest dht0 addrB pingReqB).2.2 = false →
        (handleRequest dht0 addrB pingReqB).1 = dht0 ∧
        (handleRequest dht0 addrB pingReqB).2.1 = [])) :=
  ⟨rfl, by decide, C2_update_only_on_success dht0 addrB pingReqB rfl (by decide)⟩

/-- C6: a ping request from a sender whose id differs from the local id is
answered with the fixed ping success payload, and afterwards the sender's
contact is in the routing table (in particular when it started empty). -/
theorem C6_ping_reply_and_update (dht : DHT) (addr : Addr) (req : Request)
    (hwf : dht.routingTable.node = dht.node)
    (hm : req.Method = pingMethod) (hid : req.NodeID ≠ dht.node.id) :
    (handleRequest dht addr req).2.1 =
      [(addr, ⟨req.ID, dht.node.id, pingSuccessResponse, []⟩)] ∧
    (⟨req.NodeID, addr.ip, addr.port⟩ : Node) ∈
      (handleRequest dht addr req).1.routingTable.contacts := by
  have hbody : handleRequestBody dht addr req =
      some (dht, [(addr, ⟨req.ID, dht.node.id, pingSuccessResponse, []⟩)]) := by
    unfold handleRequestBody
    rw [hm, if_pos rfl]
  unfold handleRequest
  rw [if_neg hid, hbody]
  refine ⟨rfl, ?_⟩
  have hc : ¬ ((⟨req.NodeID, addr.ip, addr.port⟩ : Node).id =
      dht.routingTable.node.id) := by
    simp only [hwf]
    exact hid
  show (⟨req.NodeID, addr.ip, addr.port⟩ : Node) ∈
    (dht.routingTable.Update ⟨req.NodeID, addr.ip, addr.port⟩).contacts
  unfold RoutingTable.Update
  rw [if_neg hc]
  exact List.mem_cons_self _ _

/-- C6 witness: node A with an empty routing table (`dht0`) receives a ping
from "B": it replies with the fixed success payload and its routing table now
contains B. -/
theorem C6_ping_reply_and_update_witness :
    dht0.routingTable.node = dht0.node ∧ pingReqB.Method = pingMethod ∧
    pingReqB.NodeID ≠ dht0.node.id ∧
    ((handleRequest dht0 addrB pingReqB).2.1 =
       [(addrB, ⟨pingReqB.ID, dht0.node.id, pingSuccessResponse, []⟩)] ∧
     (⟨pingReqB.NodeID, addrB.ip, addrB.port⟩ : Node) ∈
       (handleRequest dht0 addrB pingReqB).1.routingTable.contacts) :=
  ⟨rfl, rfl, by decide,
   C6_ping_reply_and_update dht0 addrB pingReqB rfl rfl (by decide)⟩

/-- `FindClosest` never returns more contacts than asked for. -/
theorem FindClosest_length_le (rt : RoutingTable) (t : String) (n : Nat) :
    (rt.FindClosest t n).length ≤ n := by
  unfold RoutingTable.FindClosest
  simp only [List.length_take]
  exact Nat.min_le_left _ _

/-- Inserting a record makes it present in the store. -/
theorem peerStore_Insert_self_mem (s : peerStore) (k p : String) :
    (k, p) ∈ (s.Insert k p).entries := by
  unfold peerStore.Insert
  split
  · assumption
  · exact List.mem_cons_self _ _

/-- C7: a findNode request with no argument or a wrong-length first argument
is rejected with no reply and no state change; with a valid 48-byte
identifier the node replies with the closest known contacts, at most
`bucketSize` (20) of them. -/
theorem C7_findNode_validation_and_reply (dht : DHT) (addr : Addr)
    (req : Request) (hm : req.Method = findNodeMethod)
    (hid : req.NodeID ≠ dht.node.id) :
    ((req.Args = [] ∨
        ∃ a rest, req.Args = a :: rest ∧ a.length ≠ nodeIDLength) →
       handleRequest dht addr req = (dht, [], false)) ∧
    (∀ a rest, req.Args = a :: rest → a.length = nodeIDLength →
       (handleRequest dht addr req).2.1 =
         [(addr, ⟨req.ID, dht.node.id, "",
                  dht.routingTable.FindClosest a bucketSize⟩)] ∧
       (dht.routingTable.FindClosest a bucketSize).length ≤ bucketSize) := by
  have hc1 : ¬ (findNodeMethod = pingMethod) := by decide
  have hc2 : ¬ (findNodeMethod = storeMethod) := by decide
  constructor
  · rintro (hargs | ⟨a, rest, hargs, hlen⟩)
    · have hbody : handleRequestBody dht addr req = none := by
        unfold handleRequestBody
        rw [hm, if_neg hc1, if_neg hc2, if_pos rfl, hargs]
      unfold handleRequest
      rw [if_neg hid, hbody]
    · have hbody : handleRequestBody dht addr req = none := by
        unfold handleRequestBody
        rw [hm, if_neg hc1, if_neg hc2, if_pos rfl, hargs]
        exact if_pos hlen
      unfold handleRequest
      rw [if_neg hid, hbody]
  · intro a rest hargs hlen
    have hbody : handleRequestBody dht addr req =
        some (dht, [(addr, ⟨req.ID, dht.node.id, "",
          dht.routingTable.FindClosest a bucketSize⟩)]) := by
      unfold handleRequestBody
      rw [hm, if_neg hc1, if_neg hc2, if_pos rfl, hargs]
      exact if_neg (fun hne => hne hlen)
    unfold handleRequest
    rw [if_neg hid, hbody]
    exact ⟨rfl, FindClosest_length_le _ _ _⟩

/-- C7 witness: the findNode theorem at the concrete state `dhtV` and the
valid 48-byte request `findNodeReqB`. -/
theorem C7_findNode_validation_and_reply_witness :
    findNodeReqB.Method = findNodeMethod ∧
    findNodeReqB.NodeID ≠ dhtV.node.id ∧
    (((findNodeReqB.Args = [] ∨
         ∃ a rest, findNodeReqB.Args = a :: rest ∧ a.length ≠ nodeIDLength) →
        handleRequest dhtV addrB findNodeReqB = (dhtV, [], false)) ∧
     (∀ a rest, findNodeReqB.Args = a :: rest → a.length = nodeIDLength →
        (handleRequest dhtV addrB findNodeReqB).2.1 =
          [(addrB, ⟨findNodeReqB.ID, dhtV.node.id, "",
                    dhtV.routingTable.FindClosest a bucketSize⟩)] ∧
        (dhtV.routingTable.FindClosest a bucketSize).length ≤ bucketSize)) :=
  ⟨rfl, by decide,
   C7_findNode_validation_and_reply dhtV addrB findNodeReqB rfl (by decide)⟩

/-- C8: a store request with an empty content key inserts nothing and sends
no reply (and the handler returns normally, so no crash); with a non-empty
content key the (key, publisher id) pair is inserted into the record store
and a store success reply is sent. -/
theorem C8_store_empty_key_and_insert (dht : DHT) (addr : Addr) (req : Request)
    (hm : req.Method = storeMethod) (hid : req.NodeID ≠ dht.node.id) :
    (req.StoreArgs.BlobHash = "" →
       handleRequest dht addr req = (dht, [], false)) ∧
    (req.StoreArgs.BlobHash ≠ "" →
       (handleRequest dht addr req).1.store =
         dht.store.Insert req.StoreArgs.BlobHash req.StoreArgs.NodeID ∧
       (req.StoreArgs.BlobHash, req.StoreArgs.NodeID) ∈
         (handleRequest dht addr req).1.store.entries ∧
       (handleRequest dht addr req).2.1 =
         [(addr, ⟨req.ID, dht.node.id, storeSuccessResponse, []⟩)]) := by
  have hc1 : ¬ (storeMethod = pingMethod) := by decide
  constructor
  · intro hempty
    have hbody : handleRequestBody dht addr req = none := by
      unfold handleRequestBody
      rw [hm, if_neg hc1, if_pos rfl]
      exact if_pos hempty
    unfold handleRequest
    rw [if_neg hid, hbody]
  · intro hne
    have hbody : handleRequestBody dht addr req =
        some ({ dht with
                  store := dht.store.Insert req.StoreArgs.BlobHash
                    req.StoreArgs.NodeID },
              [(addr, ⟨req.ID, dht.node.id, storeSuccessResponse, []⟩)]) := by
      unfold handleRequestBody
      rw [hm, if_neg hc1, if_pos rfl]
      exact if_neg hne
    unfold handleRequest
    rw [if_neg hid, hbody]
    exact ⟨rfl, peerStore_Insert_self_mem _ _ _, rfl⟩

/-- C8 witness: the store theorem at the concrete state `dht0` and the store
request with key "K1" from publisher "P". -/
theorem C8_store_empty_key_and_insert_witness :
    storeReqB.Method = storeMethod ∧ storeReqB.NodeID ≠ dht0.node.id ∧
    ((storeReqB.StoreArgs.BlobHash = "" →
        handleRequest dht0 addrB storeReqB = (dht0, [], false)) ∧
     (storeReqB.StoreArgs.BlobHash ≠ "" →
        (handleRequest dht0 addrB storeReqB).1.store =
          dht0.store.Insert storeReqB.StoreArgs.BlobHash
            storeReqB.StoreArgs.NodeID ∧
        (storeReqB.StoreArgs.BlobHash, storeReqB.StoreArgs.NodeID) ∈
          (handleRequest dht0 addrB storeReqB).1.store.entries ∧
        (handleRequest dht0 addrB storeReqB).2.1 =
          [(addrB, ⟨storeReqB.ID, dht0.node.id, storeSuccessResponse, []⟩)])) :=
  ⟨rfl, by decide,
   C8_store_empty_key_and_insert dht0 addrB storeReqB rfl (by decide)⟩

/-- C10: `New` with a nil config builds a node from the standard defaults
(address ":4444", the three lbrynet seed nodes, the freshly generated random
id, an empty routing table and store); with a config whose address cannot be
split into host and port, or whose port is not an integer, `New` panics
instead of returning an error. -/
theorem C10_new_defaults_and_panics (r : String) (cfg : Config)
    (h : splitHostPort cfg.Address = none ∨
         ∃ hp, splitHostPort cfg.Address = some hp ∧ toIntE hp.snd = none) :
    New r none =
      .ok ⟨NewStandardConfig, ⟨r, "", 4444⟩,
           newRoutingTable ⟨r, "", 4444⟩, newPeerStore⟩ ∧
    New r (some cfg) = .panicked := by
  constructor
  · rfl
  · rcases h with h | ⟨hp, h1, h2⟩
    · simp [New, Option.getD, h]
    · simp [New, Option.getD, h1, h2]

/-- C10 witness: the constructor theorem with random id "rid" and a config
whose address has no colon. -/
theorem C10_new_defaults_and_panics_witness :
    (splitHostPort cfgBadAddr.Address = none ∨
     ∃ hp, splitHostPort cfgBadAddr.Address = some hp ∧ toIntE hp.snd = none) ∧
    (New "rid" none =
       .ok ⟨NewStandardConfig, ⟨"rid", "", 4444⟩,
            newRoutingTable ⟨"rid", "", 4444⟩, newPeerStore⟩ ∧
     New "rid" (some cfgBadAddr) = .panicked) :=
  ⟨Or.inl (by decide),
   C10_new_defaults_and_panics "rid" cfgBadAddr (Or.inl (by decide))⟩

end Dht
